import Mathlib

/-!
# go-climate: the exclusive conversion handlers

A shallow embedding of `src/main.go` (package `conversion`): the four HTTP
handlers of `ExclusiveHandler`.  A handler is a function from the request and
the results of its collaborators to a `Run`: the ordered list of observable
effects (responses written, log lines, calls that write or query the
repository), the final value of the handler's local `conv`, and the returned
error.

The collaborators (`authentication.Token`, `FindByBukalapakTransactionID`,
`CheckMothershipTransaction`, `RemitValidation`, `transaction.Update`, `Remit`,
`RetrieveConversions`, `ManualCheck`, `Manual`, ...) are not part of the source
file; they are parameters of the handlers.
-/

namespace Climate

/-! ## Data model -/

/-- Timestamps (`time.Time`) are only copied by the handlers. -/
abbrev Time := String

/-- Errors seen by the handlers: the named values of package `errors`, the two
kinds of `*strconv.NumError` that `strconv.Atoi` returns, and any other error a
collaborator reports. -/
inductive Err where
  | Unauthorized
  | UnprocessableEntity
  | ConversionNotFound
  | TransactionNotRemitted
  | numSyntax (s : String)
  | numRange (s : String)
  | other (msg : String)
  deriving DecidableEq, Repr

/-- The fields of `annex.Conversion` that the handlers read or write; every
other field of the record is kept in `rest`. -/
structure Conversion where
  ID : Nat
  TransactionID : String
  BukalapakTransactionID : Nat
  TransactionType : String
  Status : String
  Amount : Int
  InvoiceNumber : String
  RemittedAt : Option Time
  rest : List (String × String)
  deriving DecidableEq, Repr

/-- The fields of `annex.BukalapakTransaction` (the remittance log) that the
handlers write; `ConversionID` is a nullable pointer. -/
structure BukalapakTransaction where
  ConversionID : Option Nat
  InvoiceNumber : String
  Amount : Int
  PaymentMethod : String
  Status : String
  rest : List (String × String)
  deriving DecidableEq, Repr

/-- The zero value `annex.BukalapakTransaction{}`. -/
def BukalapakTransaction.zero : BukalapakTransaction :=
  { ConversionID := none, InvoiceNumber := "", Amount := 0, PaymentMethod := "",
    Status := "", rest := [] }

/-- The authoritative transaction returned by `CheckMothershipTransaction`. -/
structure MothershipTransaction where
  InvoiceNumber : String
  Amount : Int
  PaymentMethod : String
  RemittedAt : Option Time
  State : String
  deriving DecidableEq, Repr

/-- The authenticated resource owner (`annex.BukalapakTokenResourceOwner`). -/
structure Owner where
  name : String
  deriving DecidableEq, Repr

/-- The part of `context.Context` the handlers use: the tags appended by
`annex.AppendTags`, the track id set by `annex.SetTrackID`, the value stored
under "Auth-Owner" when it is a resource owner, and whether the key
"Must-Success" has been bound to the handler's flag. -/
structure Ctx where
  tags : List String
  trackID : Option String
  authOwner : Option Owner
  mustSuccessBound : Bool
  deriving DecidableEq, Repr

/-- Effect of `annex.AppendTags`. -/
def AppendTags (ctx : Ctx) (tag : String) : Ctx := { ctx with tags := ctx.tags ++ [tag] }

/-- Effect of `annex.SetTrackID`. -/
def SetTrackID (ctx : Ctx) (id : String) : Ctx := { ctx with trackID := some id }

/-- Pagination block `response.Meta` of a list response. -/
structure Meta where
  HTTPStatus : Int
  Limit : Int
  Offset : Int
  Total : Int
  deriving DecidableEq, Repr

/-- The value handed to `response.OK`. -/
inductive Body where
  | conv (c : Conversion)
  | err (e : Err)
  | count (n : Int)
  deriving DecidableEq, Repr

/-- The two info lines `SendPostback` logs. -/
inductive Info where
  | alreadyUsed (bukalapakTransactionID : Nat) (transactionID : String)
  | notRemitted (bukalapakTransactionID : Nat) (transactionID : String) (state : String)
  deriving DecidableEq, Repr

/-- A filter `map[string]string`, kept as the list of its bindings in the order
in which the keys were first assigned. -/
abbrev Filter := List (String × String)

/-- Assignment `filter[k] = v`. -/
def Filter.set : Filter → String → String → Filter
  | [], k, v => [(k, v)]
  | (k0, v0) :: rest, k, v =>
    if k0 = k then (k0, v) :: rest else (k0, v0) :: Filter.set rest k v

/-- Lookup `filter[k]` with its presence flag. -/
def Filter.get : Filter → String → Option String
  | [], _ => none
  | (k0, v0) :: rest, k => if k0 = k then some v0 else Filter.get rest k

/-- The keys bound in a filter. -/
def Filter.keys (f : Filter) : List String := f.map Prod.fst

/-- Observable effects of a handler, in program order. -/
inductive Event where
  | logErrorf (e : Err)
  | logInfof (i : Info)
  | respError (e : Err)
  | respOK (b : Body)
  | respOKMeta (cs : List Conversion) (m : Meta)
  | respCreated (c : Conversion)
  | callUpdate (ctx : Ctx) (log : BukalapakTransaction)
  | callRemit (ctx : Ctx) (c : Conversion) (log : BukalapakTransaction)
  | callRetrieve (ctx : Ctx) (filter : Filter) (limit offset : Int)
  | callManual (ctx : Ctx) (c : Conversion) (log : BukalapakTransaction) (o : Owner)
  deriving DecidableEq, Repr

/-- How a handler ends: `return nil`, `return err`, or a runtime panic. -/
inductive Ret where
  | nil
  | err (e : Err)
  | panic (msg : String)
  deriving DecidableEq, Repr

/-- One execution of a handler. -/
structure Run where
  events : List Event
  conv : Option Conversion
  ret : Ret
  deriving DecidableEq, Repr

/-! ## Go library functions used by the handlers -/

/-- The two ways the digit loop of `strconv.ParseUint` fails: a byte that is
not a decimal digit (`ErrSyntax`) or a value beyond 64 bits (`ErrRange`). -/
inductive DigitError where
  | invalid
  | outOfRange
  deriving DecidableEq, Repr

/-- The digit loop of `strconv.ParseUint(s, 10, 64)`, which `strconv.Atoi`
falls back to (its fast path for short strings computes the same value): each
byte must be an ASCII digit; the loop stops with a range error as soon as the
value would no longer fit in 64 bits. -/
def atoiDigits : List Char → Nat → Except DigitError Nat
  | [], n => .ok n
  | ch :: cs, n =>
    if 48 ≤ ch.toNat ∧ ch.toNat ≤ 57 then
      if n ≥ (2 ^ 64 - 1) / 10 + 1 then .error .outOfRange
      else if n * 10 + (ch.toNat - 48) > 2 ^ 64 - 1 then .error .outOfRange
      else atoiDigits cs (n * 10 + (ch.toNat - 48))
    else .error .invalid

/-- Go's `strconv.Atoi` for a 64-bit `int`: an optional sign followed by one or
more decimal digits; a value outside `[-2^63, 2^63-1]` is a range error, any
other shape a syntax error. The error carries the string that was parsed. -/
def Atoi (s : String) : Except Err Int :=
  match s.toList with
  | [] => .error (.numSyntax s)
  | c :: cs =>
    let neg := c = '-'
    let digits := if c = '-' ∨ c = '+' then cs else c :: cs
    if digits = [] then .error (.numSyntax s)
    else
      match atoiDigits digits 0 with
      | .error .invalid => .error (.numSyntax s)
      | .error .outOfRange => .error (.numRange s)
      | .ok n =>
        if neg then
          if n ≤ 2 ^ 63 then .ok (-(n : Int)) else .error (.numRange s)
        else
          if n < 2 ^ 63 then .ok (n : Int) else .error (.numRange s)

/-- The conversion `uint(n)` of a 64-bit `int`. -/
def toUint (n : Int) : Nat := (n % 2 ^ 64).toNat

/-- The parsed query `url.Values` returned by `r.URL.Query()`: every key that
is present is bound to its first value and the list of the further ones (the
parser never binds a key to an empty slice). -/
abbrev Values := List (String × String × List String)

/-- Lookup `params[k]` with its presence flag. -/
def Values.get : Values → String → Option (String × List String)
  | [], _ => none
  | (k0, v0) :: rest, k => if k0 = k then some v0 else Values.get rest k

/-- The request as the handlers read it: its context `r.Context()`, the
`Authorization` header (empty when absent), the route parameter `trxID`, the
parsed query string and the body. -/
structure Request where
  ctx : Ctx
  authorization : String
  trxID : String
  query : Values
  body : String
  deriving DecidableEq, Repr

/-! ## SendPostback -/

/-- Collaborators of `SendPostback`. `transaction.Update` has no entry: the
handler ignores whatever it returns. -/
structure PostbackDeps where
  Token : String → List String → Except Err Owner
  FindByBukalapakTransactionID : Ctx → Nat → Except Err Conversion
  CheckMothershipTransaction : String → Nat → Except Err MothershipTransaction
  RemitValidation : BukalapakTransaction → Option Err
  Remit : Ctx → Conversion → BukalapakTransaction → Conversion × Option Err

/-- The log `SendPostback` builds from the loaded conversion and the
authoritative transaction (lines 67-77). -/
def buildLog (conv : Conversion) (m : MothershipTransaction) : BukalapakTransaction :=
  { BukalapakTransaction.zero with
    ConversionID := some conv.ID
    InvoiceNumber := m.InvoiceNumber
    Amount := m.Amount
    PaymentMethod := m.PaymentMethod }

/-- The gate of line 86:
`conv.Status == "completed" && conv.RemittedAt != nil || conv.Status == "failed"`. -/
def alreadyUsed (conv : Conversion) : Bool :=
  (conv.Status == "completed" && conv.RemittedAt != none) || conv.Status == "failed"

/-- The handler `ExclusiveHandler.SendPostback`. -/
def SendPostback (k : PostbackDeps) (r : Request) : Run :=
  let ctx := AppendTags r.ctx "conversion"
  match k.Token r.authorization [] with
  | .error err => ⟨[.respError .Unauthorized], none, .err err⟩
  | .ok _ =>
    let trxID := r.trxID
    let parsed := Atoi trxID
    let ctx := SetTrackID ctx trxID
    match parsed with
    | .error err => ⟨[.respError .UnprocessableEntity], none, .err err⟩
    | .ok bukalapakTrxID =>
      match k.FindByBukalapakTransactionID ctx (toUint bukalapakTrxID) with
      | .error _ => ⟨[.respError .ConversionNotFound], none, .err .ConversionNotFound⟩
      | .ok conv =>
        match k.CheckMothershipTransaction conv.TransactionType conv.BukalapakTransactionID with
        | .error err => ⟨[.respError err], some conv, .err err⟩
        | .ok mothershipTrx =>
          let trxLog := buildLog conv mothershipTrx
          match k.RemitValidation trxLog with
          | some err =>
            let trxLog := { trxLog with Status := "rejected" }
            ⟨[.logErrorf err, .respError err, .callUpdate ctx trxLog], some conv, .err err⟩
          | none =>
            if alreadyUsed conv then
              ⟨[.logInfof (.alreadyUsed conv.BukalapakTransactionID conv.TransactionID),
                .respOK (.conv conv)], some conv, .nil⟩
            else if mothershipTrx.RemittedAt = none then
              ⟨[.logInfof (.notRemitted conv.BukalapakTransactionID conv.TransactionID
                  mothershipTrx.State),
                .respError .TransactionNotRemitted], some conv, .err .TransactionNotRemitted⟩
            else
              let conv := { conv with
                Amount := mothershipTrx.Amount
                RemittedAt := mothershipTrx.RemittedAt
                InvoiceNumber := mothershipTrx.InvoiceNumber }
              let updated := (k.Remit ctx conv trxLog).1
              ⟨[.callRemit ctx conv trxLog, .respOK (.conv updated)], some conv, .nil⟩


/-! ## GetConversionCount -/

/-- The handler `ExclusiveHandler.GetConversionCount`, over the result of
`CountConversion`. -/
def GetConversionCount (CountConversion : Ctx → String → Except Err Int) (r : Request) : Run :=
  let ctx := AppendTags r.ctx "conversion"
  let trxID := r.trxID
  match CountConversion ctx trxID with
  | .error _ => ⟨[.respError .ConversionNotFound], none, .err .ConversionNotFound⟩
  | .ok count => ⟨[.respOK (.count count)], none, .nil⟩

/-! ## GetConversions -/

/-- Collaborators of `GetConversions`. -/
structure ListDeps where
  Token : String → List String → Except Err Owner
  RetrieveConversions : Ctx → Filter → Int → Int → Except Err (List Conversion × Int)

/-- The filter `GetConversions` builds from the query (lines 119-143 and
165-169). The `sort` key is assigned after the pagination values are parsed;
nothing in between reads the filter. -/
def buildFilter (params : Values) : Filter :=
  let filter : Filter := []
  let filter :=
    match params.get "start_date" with
    | some start_date =>
      if start_date.1 ≠ "" then filter.set "start_date" start_date.1
      else filter.set "start_date" "0001-01-01"
    | none => filter.set "start_date" "0001-01-01"
  let filter :=
    match params.get "end_date" with
    | some end_date =>
      if end_date.1 ≠ "" then filter.set "end_date" end_date.1
      else filter.set "end_date" "9999-12-31"
    | none => filter.set "end_date" "9999-12-31"
  let filter :=
    match params.get "search_by" with
    | some search_by =>
      if search_by.1 ≠ "" then filter.set "search_by" search_by.1
      else filter.set "search_by" ""
    | none => filter.set "search_by" ""
  let filter :=
    match params.get "keywords" with
    | some keywords => filter.set "keywords" keywords.1
    | none => filter.set "keywords" ""
  match params.get "sort" with
  | some sort => filter.set "sort" sort.1
  | none => filter.set "sort" "desc"

/-- The handler `ExclusiveHandler.GetConversions`. -/
def GetConversions (k : ListDeps) (r : Request) : Run :=
  let ctx := AppendTags r.ctx "conversion"
  match k.Token r.authorization [] with
  | .error err => ⟨[.respError .Unauthorized], none, .err err⟩
  | .ok _ =>
    let params := r.query
    let limitParsed : Except Err Int :=
      match params.get "limit" with
      | some l => Atoi l.1
      | none => .ok 10
    match limitParsed with
    | .error err => ⟨[.respError .UnprocessableEntity], none, .err err⟩
    | .ok limit =>
      let offsetParsed : Except Err Int :=
        match params.get "offset" with
        | some o => Atoi o.1
        | none => .ok 0
      match offsetParsed with
      | .error err => ⟨[.respError .UnprocessableEntity], none, .err err⟩
      | .ok offset =>
        let filter := buildFilter params
        match k.RetrieveConversions ctx filter limit offset with
        | .error err =>
          ⟨[.callRetrieve ctx filter limit offset, .respError err], none, .err err⟩
        | .ok (conversions, count) =>
          let m : Meta := { HTTPStatus := 200, Limit := limit, Offset := offset, Total := count }
          ⟨[.callRetrieve ctx filter limit offset, .respOKMeta conversions m], none, .nil⟩

/-! ## CreateManualConversion -/

/-- Collaborators of `CreateManualConversion`. `Manual` also yields the value
of the handler's flag `mustSuccess` (reachable through the context key
"Must-Success") when the call returns; the flag starts out false. -/
structure ManualDeps where
  DecodeConversion : Request → Except Err Conversion
  DecodeLog : Request → Except Err BukalapakTransaction
  ValidateEmptyField : Conversion → Option Err
  ManualCheck : Ctx → Conversion → Option Err
  Manual : Ctx → Conversion → BukalapakTransaction → Owner → Conversion × Option Err × Bool

/-- The handler `ExclusiveHandler.CreateManualConversion`. -/
def CreateManualConversion (k : ManualDeps) (r : Request) : Run :=
  let ctx := AppendTags r.ctx "conversion"
  match k.DecodeConversion r with
  | .error err => ⟨[.respError err], none, .err err⟩
  | .ok conv =>
    let ctx := SetTrackID ctx (toString conv.BukalapakTransactionID)
    match k.DecodeLog r with
    | .error err => ⟨[.respError err], some conv, .err err⟩
    | .ok trxLog =>
      match k.ValidateEmptyField conv with
      | some err => ⟨[.respError err], some conv, .err err⟩
      | none =>
        match k.ManualCheck ctx conv with
        | some err => ⟨[.respError err], some conv, .err err⟩
        | none =>
          match ctx.authOwner with
          | none => ⟨[], some conv, .panic "interface conversion"⟩
          | some owner =>
            let ctx := { ctx with mustSuccessBound := true }
            match k.Manual ctx conv trxLog owner with
            | (conv1, some err, mustSuccess) =>
              if mustSuccess then
                ⟨[.callManual ctx conv trxLog owner, .respOK (.err err)], some conv1, .err err⟩
              else
                ⟨[.callManual ctx conv trxLog owner, .respError err], some conv1, .err err⟩
            | (conv1, none, _) =>
              ⟨[.callManual ctx conv trxLog owner, .respCreated conv1], some conv1, .nil⟩

/-! ## Observations on a run -/

/-- The logs handed to `transaction.Update`, in call order. -/
def Run.updates (run : Run) : List BukalapakTransaction :=
  run.events.filterMap fun e =>
    match e with
    | .callUpdate _ log => some log
    | _ => none

/-- The arguments of the calls to `Remit`, in call order. -/
def Run.remits (run : Run) : List (Ctx × Conversion × BukalapakTransaction) :=
  run.events.filterMap fun e =>
    match e with
    | .callRemit ctx c log => some (ctx, c, log)
    | _ => none

/-- The arguments of the calls to `RetrieveConversions`, in call order. -/
def Run.retrieves (run : Run) : List (Ctx × Filter × Int × Int) :=
  run.events.filterMap fun e =>
    match e with
    | .callRetrieve ctx f l o => some (ctx, f, l, o)
    | _ => none

/-- Whether an event writes to the response. -/
def Event.isResponse : Event → Bool
  | .respError _ => true
  | .respOK _ => true
  | .respOKMeta _ _ => true
  | .respCreated _ => true
  | _ => false

/-- The responses written, in order. -/
def Run.responses (run : Run) : List Event := run.events.filter Event.isResponse

/-- The context `SendPostback` passes to its collaborators once the route
parameter has been read. -/
def postbackCtx (r : Request) : Ctx := SetTrackID (AppendTags r.ctx "conversion") r.trxID

/-- The handler got past authentication, identifier parsing, the repository
lookup and the authority lookup: the repository returned `conv` and the
authority returned `m` for it. -/
def Loaded (k : PostbackDeps) (r : Request) (conv : Conversion) (m : MothershipTransaction) :
    Prop :=
  ∃ o n, k.Token r.authorization [] = .ok o ∧ Atoi r.trxID = .ok n ∧
    k.FindByBukalapakTransactionID (postbackCtx r) (toUint n) = .ok conv ∧
    k.CheckMothershipTransaction conv.TransactionType conv.BukalapakTransactionID = .ok m

/-- A conversion is terminal when its status is `completed` with a remittance
timestamp, or `failed` (section 3 of the specification). -/
def Terminal (conv : Conversion) : Prop :=
  (conv.Status = "completed" ∧ conv.RemittedAt ≠ none) ∨ conv.Status = "failed"

instance (conv : Conversion) : Decidable (Terminal conv) := by
  unfold Terminal; exact inferInstance

/-- The conversion handed to `Remit`: the loaded one with the three financial
fields copied from the authority (lines 98-100). -/
def settled (conv : Conversion) (m : MothershipTransaction) : Conversion :=
  { conv with Amount := m.Amount, RemittedAt := m.RemittedAt, InvoiceNumber := m.InvoiceNumber }

/-- The log concerns `conv` and carries the authoritative transaction's invoice
number, amount and payment method. -/
def LogMatches (log : BukalapakTransaction) (conv : Conversion) (m : MothershipTransaction) :
    Prop :=
  log.ConversionID = some conv.ID ∧ log.InvoiceNumber = m.InvoiceNumber ∧
    log.Amount = m.Amount ∧ log.PaymentMethod = m.PaymentMethod

instance (log : BukalapakTransaction) (conv : Conversion) (m : MothershipTransaction) :
    Decidable (LogMatches log conv m) := by
  unfold LogMatches; exact inferInstance

/-! ## Sample collaborators -/

/-- Modelled from the spec: the Remittance Validator of section 4.1, which is
not in the source file: it rejects a log whose amount is not positive or whose
invoice number is empty. -/
def specRemitValidation (log : BukalapakTransaction) : Option Err :=
  if log.Amount ≤ 0 then some (.other "amount must be positive")
  else if log.InvoiceNumber = "" then some (.other "invoice number is empty")
  else none

/-- A repository holding the single conversion `stored`, an authority that
answers `m`, the validator of the specification, and a `Remit` that answers
`remitResult`. -/
def sampleDeps (stored : Conversion) (m : MothershipTransaction)
    (remitResult : Conversion → Conversion × Option Err) : PostbackDeps :=
  { Token := fun header _ => if header = "token" then .ok ⟨"partner"⟩ else .error .Unauthorized
    FindByBukalapakTransactionID := fun _ id =>
      if id = stored.BukalapakTransactionID then .ok stored else .error .ConversionNotFound
    CheckMothershipTransaction := fun _ _ => .ok m
    RemitValidation := specRemitValidation
    Remit := fun _ c _ => remitResult c }

/-- A `Remit` that succeeds and marks the conversion completed. -/
def remitOk (c : Conversion) : Conversion × Option Err := ({ c with Status := "completed" }, none)

/-- A `Remit` that fails: it returns the zero conversion and an error. -/
def remitFails (_ : Conversion) : Conversion × Option Err :=
  ({ ID := 0, TransactionID := "", BukalapakTransactionID := 0, TransactionType := "",
     Status := "", Amount := 0, InvoiceNumber := "", RemittedAt := none, rest := [] },
   some (.other "database is down"))

/-- The conversion of scenarios A to C: id 1, internal transaction 500, pending. -/
def pendingConv : Conversion :=
  { ID := 1, TransactionID := "ho-1", BukalapakTransactionID := 500, TransactionType := "invoice",
    Status := "pending", Amount := 0, InvoiceNumber := "", RemittedAt := none, rest := [] }

/-- The conversion of scenario D: the record after scenario B completed. -/
def completedConv : Conversion :=
  { pendingConv with Status := "completed", Amount := 1000, InvoiceNumber := "INV-1",
                     RemittedAt := some "2024-01-01T00:00:00Z" }

/-- A conversion already marked failed. -/
def failedConv : Conversion := { pendingConv with Status := "failed" }

/-- A conversion marked completed that carries no remittance timestamp. -/
def completedNoStamp : Conversion := { pendingConv with Status := "completed" }

/-- Authority answer of scenario A: amount 1000, not remitted yet. -/
def trxUnremitted : MothershipTransaction :=
  { InvoiceNumber := "INV-1", Amount := 1000, PaymentMethod := "wallet", RemittedAt := none,
    State := "paid" }

/-- Authority answer of scenario B: amount 1000, remitted. -/
def trxRemitted : MothershipTransaction :=
  { trxUnremitted with RemittedAt := some "2024-01-01T00:00:00Z", State := "remitted" }

/-- Authority answer of scenario C: amount -5. -/
def trxNegative : MothershipTransaction := { trxRemitted with Amount := -5 }

/-- A postback request for internal transaction 500 with a valid token. -/
def postbackReq : Request :=
  { ctx := { tags := [], trackID := none, authOwner := none, mustSuccessBound := false }
    authorization := "token", trxID := "500", query := [], body := "" }

/-! ## Observations and samples for `GetConversions` -/

/-- The first value supplied for a query key, when the key is present. -/
def supplied (params : Values) (key : String) : Option String :=
  (params.get key).map Prod.fst

/-- The pagination value the handler works with: the default when the key is
absent, otherwise what `strconv.Atoi` makes of the first value supplied. -/
def pageParam (params : Values) (key : String) (dflt : Int) : Except Err Int :=
  match supplied params key with
  | some v => Atoi v
  | none => .ok dflt

/-- The context `GetConversions` passes to `RetrieveConversions`. -/
def listCtx (r : Request) : Ctx := AppendTags r.ctx "conversion"

/-- An empty repository behind a token check. -/
def sampleList : ListDeps :=
  { Token := fun header _ => if header = "token" then .ok ⟨"partner"⟩ else .error .Unauthorized
    RetrieveConversions := fun _ _ _ _ => .ok ([], 0) }

/-- A list request with a valid token and the given parsed query. -/
def listReq (q : Values) : Request :=
  { ctx := { tags := [], trackID := none, authOwner := none, mustSuccessBound := false }
    authorization := "token", trxID := "", query := q, body := "" }

/-! ## Observations and samples for `CreateManualConversion` -/

/-- The context `CreateManualConversion` passes to `Manual`. -/
def manualCtx (r : Request) (conv : Conversion) : Ctx :=
  { SetTrackID (AppendTags r.ctx "conversion") (toString conv.BukalapakTransactionID) with
    mustSuccessBound := true }

/-- The request decodes to `conv` and `log`, both checks pass and the context
carries the resource owner: the handler reaches the call to `Manual`. -/
def Admitted (k : ManualDeps) (r : Request) (conv : Conversion) (log : BukalapakTransaction)
    (owner : Owner) : Prop :=
  k.DecodeConversion r = .ok conv ∧ k.DecodeLog r = .ok log ∧
    k.ValidateEmptyField conv = none ∧
    k.ManualCheck (SetTrackID (AppendTags r.ctx "conversion")
      (toString conv.BukalapakTransactionID)) conv = none ∧
    r.ctx.authOwner = some owner

/-- Collaborators that decode `pendingConv` with an empty log, accept it, and
whose `Manual` answers `manualResult`. -/
def sampleManual (manualResult : Conversion × Option Err × Bool) : ManualDeps :=
  { DecodeConversion := fun _ => .ok pendingConv
    DecodeLog := fun _ => .ok BukalapakTransaction.zero
    ValidateEmptyField := fun _ => none
    ManualCheck := fun _ _ => none
    Manual := fun _ _ _ _ => manualResult }

/-- An operator request. -/
def manualReq : Request :=
  { ctx := { tags := [], trackID := none, authOwner := some ⟨"operator"⟩,
             mustSuccessBound := false }
    authorization := "", trxID := "", query := [], body := "" }

/-! ## The repository behind `transaction.Update` -/

/-- The persisted records a rejected postback touches: the stored conversions
and the remittance logs. -/
structure Store where
  conversions : List Conversion
  logs : List BukalapakTransaction
  deriving DecidableEq, Repr

/-- Modelled from the spec: `transaction.Update`, which `SendPostback` calls
but which is not in the source file. Section 4.2 step 4 and the log invariant
of section 3 describe the rejection path, whose only write this call is: the
log is persisted with its `rejected` status, and the Conversion it refers to is
marked `failed` and persisted. A log with any other status is only persisted. -/
def transactionUpdate (s : Store) (log : BukalapakTransaction) : Store :=
  { logs := s.logs ++ [log]
    conversions :=
      if log.Status = "rejected" then
        s.conversions.map fun c =>
          if log.ConversionID = some c.ID then { c with Status := "failed" } else c
      else s.conversions }

/-- The store after the calls a run makes to `transaction.Update`. -/
def Run.commitUpdates (run : Run) (s : Store) : Store :=
  run.updates.foldl transactionUpdate s

/-- A store holding scenario C's pending conversion, another conversion, and
no log yet. -/
def sampleStore : Store :=
  { conversions := [pendingConv, { completedConv with ID := 2, BukalapakTransactionID := 501 }]
    logs := [] }

/-! ## The four outcomes of `SendPostback` after the lookups -/

theorem alreadyUsed_eq_true_iff (conv : Conversion) : alreadyUsed conv = true ↔ Terminal conv := by
  simp [alreadyUsed, Terminal]

theorem alreadyUsed_eq_false_iff (conv : Conversion) :
    alreadyUsed conv = false ↔ ¬ Terminal conv := by
  rw [← alreadyUsed_eq_true_iff]; simp

/-- Validation rejects: the rejected log is written and the error returned. -/
theorem run_rejected {k : PostbackDeps} {r : Request} {conv : Conversion}
    {m : MothershipTransaction} {e : Err} (h : Loaded k r conv m)
    (hv : k.RemitValidation (buildLog conv m) = some e) :
    SendPostback k r =
      ⟨[.logErrorf e, .respError e,
        .callUpdate (postbackCtx r) { buildLog conv m with Status := "rejected" }],
       some conv, .err e⟩ := by
  obtain ⟨o, n, h1, h2, h3, h4⟩ := h
  simp only [postbackCtx] at h3
  simp [SendPostback, postbackCtx, h1, h2, h3, h4, hv]

/-- Validation passes on a terminal conversion: the gate answers. -/
theorem run_gate {k : PostbackDeps} {r : Request} {conv : Conversion}
    {m : MothershipTransaction} (h : Loaded k r conv m)
    (hv : k.RemitValidation (buildLog conv m) = none) (ht : Terminal conv) :
    SendPostback k r =
      ⟨[.logInfof (.alreadyUsed conv.BukalapakTransactionID conv.TransactionID),
        .respOK (.conv conv)], some conv, .nil⟩ := by
  obtain ⟨o, n, h1, h2, h3, h4⟩ := h
  simp only [postbackCtx] at h3
  have hu := (alreadyUsed_eq_true_iff conv).2 ht
  simp [SendPostback, h1, h2, h3, h4, hv, hu]

/-- Validation passes, the conversion is open, the authority has no remittance
timestamp. -/
theorem run_unremitted {k : PostbackDeps} {r : Request} {conv : Conversion}
    {m : MothershipTransaction} (h : Loaded k r conv m)
    (hv : k.RemitValidation (buildLog conv m) = none) (ht : ¬ Terminal conv)
    (hr : m.RemittedAt = none) :
    SendPostback k r =
      ⟨[.logInfof (.notRemitted conv.BukalapakTransactionID conv.TransactionID m.State),
        .respError .TransactionNotRemitted], some conv, .err .TransactionNotRemitted⟩ := by
  obtain ⟨o, n, h1, h2, h3, h4⟩ := h
  simp only [postbackCtx] at h3
  have hu := (alreadyUsed_eq_false_iff conv).2 ht
  simp [SendPostback, h1, h2, h3, h4, hv, hu, hr]

/-- Validation passes, the conversion is open, the authority has a remittance
timestamp: the settlement step. -/
theorem run_settle {k : PostbackDeps} {r : Request} {conv : Conversion}
    {m : MothershipTransaction} (h : Loaded k r conv m)
    (hv : k.RemitValidation (buildLog conv m) = none) (ht : ¬ Terminal conv)
    (hr : m.RemittedAt ≠ none) :
    SendPostback k r =
      ⟨[.callRemit (postbackCtx r) (settled conv m) (buildLog conv m),
        .respOK (.conv (k.Remit (postbackCtx r) (settled conv m) (buildLog conv m)).1)],
       some (settled conv m), .nil⟩ := by
  obtain ⟨o, n, h1, h2, h3, h4⟩ := h
  simp only [postbackCtx] at h3
  have hu := (alreadyUsed_eq_false_iff conv).2 ht
  simp [SendPostback, postbackCtx, settled, h1, h2, h3, h4, hv, hu, hr]

/-- The sample collaborators load the stored conversion for `postbackReq`. -/
theorem sample_loaded (stored : Conversion) (m : MothershipTransaction)
    (remitResult : Conversion → Conversion × Option Err)
    (hid : stored.BukalapakTransactionID = 500) :
    Loaded (sampleDeps stored m remitResult) postbackReq stored m := by
  refine ⟨⟨"partner"⟩, 500, by rfl, by rfl, ?_, by rfl⟩
  have h5 : toUint 500 = 500 := by decide
  simp [sampleDeps, h5, hid]

/-! ## Claims about `SendPostback` -/

/-- C1 as stated fails at two inputs. A conversion already `failed` whose
authority answer is rejected by validation gets a `rejected` log written and
an error returned; a conversion `completed` without a remittance timestamp
whose authority answer is remitted is handed to `Remit`. -/
theorem C1_counterexample :
    (Loaded (sampleDeps failedConv trxNegative remitOk) postbackReq failedConv trxNegative ∧
      failedConv.Status = "failed" ∧
      (SendPostback (sampleDeps failedConv trxNegative remitOk) postbackReq).ret
        = .err (.other "amount must be positive") ∧
      (SendPostback (sampleDeps failedConv trxNegative remitOk) postbackReq).updates
        = [{ buildLog failedConv trxNegative with Status := "rejected" }]) ∧
    (Loaded (sampleDeps completedNoStamp trxRemitted remitOk) postbackReq completedNoStamp
        trxRemitted ∧
      completedNoStamp.Status = "completed" ∧
      (SendPostback (sampleDeps completedNoStamp trxRemitted remitOk) postbackReq).remits
        = [(postbackCtx postbackReq, settled completedNoStamp trxRemitted,
            buildLog completedNoStamp trxRemitted)]) :=
  ⟨⟨sample_loaded _ _ _ rfl, by rfl, by rfl, by rfl⟩, ⟨sample_loaded _ _ _ rfl, by rfl, by rfl⟩⟩

/-- C1 (amended): for a stored conversion that is `completed` with a
remittance timestamp, or `failed`, and an authority answer whose log passes
validation, the whole run is: one info line, an OK response carrying the
stored conversion, the conversion left as loaded, no error, and therefore no
call to `transaction.Update` or `Remit`. -/
theorem C1_terminal_replay_is_noop (k : PostbackDeps) (r : Request) (conv : Conversion)
    (m : MothershipTransaction) (h : Loaded k r conv m)
    (hv : k.RemitValidation (buildLog conv m) = none)
    (ht : (conv.Status = "completed" ∧ conv.RemittedAt ≠ none) ∨ conv.Status = "failed") :
    SendPostback k r =
      { events := [.logInfof (.alreadyUsed conv.BukalapakTransactionID conv.TransactionID),
                   .respOK (.conv conv)]
        conv := some conv
        ret := .nil } ∧
    (∀ ctx log, Event.callUpdate ctx log ∉ (SendPostback k r).events) ∧
    (∀ ctx c log, Event.callRemit ctx c log ∉ (SendPostback k r).events) := by
  have hrun := run_gate h hv ht
  refine ⟨hrun, ?_, ?_⟩ <;> simp [hrun]

/-- Scenario D: the replay of a completed conversion. -/
theorem C1_terminal_replay_is_noop_witness :
    SendPostback (sampleDeps completedConv trxRemitted remitOk) postbackReq =
      { events := [.logInfof (.alreadyUsed 500 "ho-1"), .respOK (.conv completedConv)]
        conv := some completedConv
        ret := .nil } :=
  (C1_terminal_replay_is_noop (sampleDeps completedConv trxRemitted remitOk) postbackReq
    completedConv trxRemitted (sample_loaded _ _ _ rfl) (by rfl) (by decide)).1

/-- C2: when validation rejects the log built from the loaded conversion and
the authoritative transaction, `SendPostback` hands exactly one log, with
status `rejected` and pointing to the loaded conversion, to
`transaction.Update` and makes no other write; with `transaction.Update` as
the specification describes it, the stored conversion ends up `failed` and
persisted (every stored record with its ID is `failed`, the others are left
alone) and exactly one log, with status `rejected`, is added; the handler
writes the validation error as its only response and returns it. -/
theorem C2_rejection_durably_recorded (k : PostbackDeps) (r : Request) (conv : Conversion)
    (m : MothershipTransaction) (e : Err) (s : Store) (h : Loaded k r conv m)
    (hv : k.RemitValidation (buildLog conv m) = some e) (hs : conv ∈ s.conversions) :
    { conv with Status := "failed" } ∈ ((SendPostback k r).commitUpdates s).conversions ∧
    (∀ c ∈ ((SendPostback k r).commitUpdates s).conversions,
      c.ID = conv.ID → c.Status = "failed") ∧
    (∀ c ∈ s.conversions, c.ID ≠ conv.ID →
      c ∈ ((SendPostback k r).commitUpdates s).conversions) ∧
    (∃ log, ((SendPostback k r).commitUpdates s).logs = s.logs ++ [log] ∧
      log.Status = "rejected" ∧ LogMatches log conv m) ∧
    (SendPostback k r).updates = [{ buildLog conv m with Status := "rejected" }] ∧
    (SendPostback k r).remits = [] ∧
    (SendPostback k r).conv = some conv ∧
    (SendPostback k r).responses = [.respError e] ∧
    (SendPostback k r).ret = .err e := by
  rw [run_rejected h hv]
  have hcommit : (Run.commitUpdates
      ⟨[.logErrorf e, .respError e,
        .callUpdate (postbackCtx r) { buildLog conv m with Status := "rejected" }],
       some conv, .err e⟩ s)
      = transactionUpdate s { buildLog conv m with Status := "rejected" } := by
    simp [Run.commitUpdates, Run.updates]
  rw [hcommit]
  refine ⟨?_, ?_, ?_, ?_, ?_⟩
  · simp only [transactionUpdate, if_true, List.mem_map]
    exact ⟨conv, hs, by simp [buildLog]⟩
  · intro c hc hid
    simp only [transactionUpdate, if_true, List.mem_map] at hc
    obtain ⟨c0, _, hc0⟩ := hc
    by_cases h0 : c0.ID = conv.ID
    · simp [buildLog, h0] at hc0
      rw [← hc0]
    · have h1 : ¬ conv.ID = c0.ID := fun hh => h0 hh.symm
      simp [buildLog, h1] at hc0
      rw [← hc0] at hid
      exact absurd hid h0
  · intro c hc hid
    simp only [transactionUpdate, if_true, List.mem_map]
    refine ⟨c, hc, ?_⟩
    have h1 : ¬ conv.ID = c.ID := fun hh => hid hh.symm
    simp [buildLog, h1]
  · exact ⟨{ buildLog conv m with Status := "rejected" }, by simp [transactionUpdate],
      rfl, by simp [LogMatches, buildLog]⟩
  · simp [Run.updates, Run.remits, Run.responses, Event.isResponse]

/-- Scenario C on the sample store: the pending conversion becomes `failed`,
the other record is untouched, and one `rejected` log is added. -/
theorem C2_rejection_durably_recorded_witness :
    pendingConv ∈ sampleStore.conversions ∧
    (SendPostback (sampleDeps pendingConv trxNegative remitOk) postbackReq).commitUpdates
        sampleStore
      = { conversions := [failedConv,
            { completedConv with ID := 2, BukalapakTransactionID := 501 }]
          logs := [{ ConversionID := some 1, InvoiceNumber := "INV-1", Amount := -5,
                     PaymentMethod := "wallet", Status := "rejected", rest := [] }] } ∧
    failedConv ∈
      ((SendPostback (sampleDeps pendingConv trxNegative remitOk) postbackReq).commitUpdates
        sampleStore).conversions ∧
    (SendPostback (sampleDeps pendingConv trxNegative remitOk) postbackReq).ret
      = .err (.other "amount must be positive") :=
  have h := C2_rejection_durably_recorded (sampleDeps pendingConv trxNegative remitOk)
    postbackReq pendingConv trxNegative (.other "amount must be positive") sampleStore
    (sample_loaded _ _ _ rfl) (by rfl) (by decide)
  ⟨by decide, by rfl, h.1, h.2.2.2.2.2.2.2.2⟩

/-- C3: for a loaded conversion that is not terminal and an authoritative
transaction that passes validation and has a remittance timestamp, `Remit` is
called exactly once; its conversion has the authority's amount, timestamp and
invoice number and the loaded conversion's value in every other field; its log
is the one built for this attempt; the only response is OK with the conversion
`Remit` returned, and the handler returns nil. -/
theorem C3_settlement_step (k : PostbackDeps) (r : Request) (conv : Conversion)
    (m : MothershipTransaction) (h : Loaded k r conv m)
    (hv : k.RemitValidation (buildLog conv m) = none) (ht : ¬ Terminal conv)
    (hr : m.RemittedAt ≠ none) :
    ∃ c : Conversion,
      (SendPostback k r).remits = [(postbackCtx r, c, buildLog conv m)] ∧
      c.Amount = m.Amount ∧ c.RemittedAt = m.RemittedAt ∧ c.InvoiceNumber = m.InvoiceNumber ∧
      c.ID = conv.ID ∧ c.TransactionID = conv.TransactionID ∧
      c.BukalapakTransactionID = conv.BukalapakTransactionID ∧
      c.TransactionType = conv.TransactionType ∧ c.Status = conv.Status ∧ c.rest = conv.rest ∧
      (SendPostback k r).responses
        = [.respOK (.conv (k.Remit (postbackCtx r) c (buildLog conv m)).1)] ∧
      (SendPostback k r).ret = .nil := by
  refine ⟨settled conv m, ?_⟩
  rw [run_settle h hv ht hr]
  simp [Run.remits, Run.responses, Event.isResponse, settled]

/-- Scenario B. -/
theorem C3_settlement_step_witness :
    ∃ c : Conversion,
      (SendPostback (sampleDeps pendingConv trxRemitted remitOk) postbackReq).remits
        = [(postbackCtx postbackReq, c, buildLog pendingConv trxRemitted)] ∧
      c.Amount = 1000 ∧ c.RemittedAt = some "2024-01-01T00:00:00Z" ∧ c.InvoiceNumber = "INV-1" ∧
      c.ID = 1 ∧ c.TransactionID = "ho-1" ∧ c.BukalapakTransactionID = 500 ∧
      c.TransactionType = "invoice" ∧ c.Status = "pending" ∧ c.rest = [] ∧
      (SendPostback (sampleDeps pendingConv trxRemitted remitOk) postbackReq).responses
        = [.respOK (.conv (remitOk c).1)] ∧
      (SendPostback (sampleDeps pendingConv trxRemitted remitOk) postbackReq).ret = .nil :=
  C3_settlement_step (sampleDeps pendingConv trxRemitted remitOk) postbackReq pendingConv
    trxRemitted (sample_loaded _ _ _ rfl) (by rfl) (by decide) (by decide)

/-- C4 fails on the code: in scenario B with a `Remit` that returns an error,
the handler still answers OK (with the zero conversion `Remit` returned),
writes no error response and returns nil. -/
theorem C4_remit_error_is_dropped :
    (remitFails (settled pendingConv trxRemitted)).2 = some (.other "database is down") ∧
    (SendPostback (sampleDeps pendingConv trxRemitted remitFails) postbackReq).remits
      = [(postbackCtx postbackReq, settled pendingConv trxRemitted,
          buildLog pendingConv trxRemitted)] ∧
    (SendPostback (sampleDeps pendingConv trxRemitted remitFails) postbackReq).responses
      = [.respOK (.conv (remitFails (settled pendingConv trxRemitted)).1)] ∧
    (SendPostback (sampleDeps pendingConv trxRemitted remitFails) postbackReq).ret = .nil :=
  ⟨by rfl, by rfl, by rfl, by rfl⟩

/-- C5: for a loaded conversion that is not terminal and an authoritative
transaction that passes validation but has no remittance timestamp, the
handler answers and returns `TransactionNotRemitted`, leaves the conversion as
loaded, and calls neither `transaction.Update` nor `Remit`. -/
theorem C5_not_remitted_is_clean (k : PostbackDeps) (r : Request) (conv : Conversion)
    (m : MothershipTransaction) (h : Loaded k r conv m)
    (hv : k.RemitValidation (buildLog conv m) = none) (ht : ¬ Terminal conv)
    (hr : m.RemittedAt = none) :
    (SendPostback k r).ret = .err .TransactionNotRemitted ∧
    (SendPostback k r).responses = [.respError .TransactionNotRemitted] ∧
    (SendPostback k r).conv = some conv ∧
    (SendPostback k r).updates = [] ∧
    (SendPostback k r).remits = [] := by
  rw [run_unremitted h hv ht hr]
  simp [Run.updates, Run.remits, Run.responses, Event.isResponse]

/-- Scenario A. -/
theorem C5_not_remitted_is_clean_witness :
    (SendPostback (sampleDeps pendingConv trxUnremitted remitOk) postbackReq).ret
      = .err .TransactionNotRemitted ∧
    (SendPostback (sampleDeps pendingConv trxUnremitted remitOk) postbackReq).conv
      = some pendingConv :=
  have h := C5_not_remitted_is_clean (sampleDeps pendingConv trxUnremitted remitOk) postbackReq
    pendingConv trxUnremitted (sample_loaded _ _ _ rfl) (by rfl) (by decide) (by rfl)
  ⟨h.1, h.2.2.1⟩

/-- C6: when the log built from the authority passes validation and the
loaded conversion is terminal (`completed` with a remittance timestamp, or
`failed`), then whatever the authoritative transaction is, the only response
is OK with exactly the loaded conversion, the handler returns nil, and neither
`transaction.Update` nor `Remit` is called. -/
theorem C6_idempotency_gate (k : PostbackDeps) (r : Request) (conv : Conversion)
    (m : MothershipTransaction) (h : Loaded k r conv m)
    (hv : k.RemitValidation (buildLog conv m) = none) (ht : Terminal conv) :
    (SendPostback k r).responses = [.respOK (.conv conv)] ∧
    (SendPostback k r).ret = .nil ∧
    (SendPostback k r).updates = [] ∧
    (SendPostback k r).remits = [] := by
  rw [run_gate h hv ht]
  simp [Run.updates, Run.remits, Run.responses, Event.isResponse]

/-- A failed conversion replayed while the authority has not remitted. -/
theorem C6_idempotency_gate_witness :
    Terminal failedConv ∧ trxUnremitted.RemittedAt = none ∧
    (SendPostback (sampleDeps failedConv trxUnremitted remitOk) postbackReq).responses
      = [.respOK (.conv failedConv)] ∧
    (SendPostback (sampleDeps failedConv trxUnremitted remitOk) postbackReq).ret = .nil ∧
    (SendPostback (sampleDeps failedConv trxUnremitted remitOk) postbackReq).updates = [] ∧
    (SendPostback (sampleDeps failedConv trxUnremitted remitOk) postbackReq).remits = [] :=
  ⟨by decide, rfl,
   C6_idempotency_gate (sampleDeps failedConv trxUnremitted remitOk) postbackReq failedConv
     trxUnremitted (sample_loaded _ _ _ rfl) (by rfl) (by decide)⟩

/-- Every run of `SendPostback` makes at most one write call. -/
theorem writes_le_one (k : PostbackDeps) (r : Request) :
    (SendPostback k r).updates.length + (SendPostback k r).remits.length ≤ 1 := by
  simp only [SendPostback]
  repeat' split
  all_goals simp [Run.updates, Run.remits]

/-- C9: every run of `SendPostback` makes at most one log write (calls to
`transaction.Update` plus calls to `Remit`). Once the conversion and the
authoritative transaction are loaded: if validation rejects there is exactly
one `transaction.Update`, its log has status `rejected`, and no `Remit`; if
validation passes on an open conversion with a remitted transaction (the
settlement step) there is exactly one `Remit` and no `transaction.Update`;
otherwise there is no write. In both writing cases the log points to the
loaded conversion's ID and has the authoritative invoice number, amount and
payment method. -/
theorem C9_one_log_per_attempt (k : PostbackDeps) (r : Request) :
    (SendPostback k r).updates.length + (SendPostback k r).remits.length ≤ 1 ∧
    ∀ conv m, Loaded k r conv m →
      match k.RemitValidation (buildLog conv m) with
      | some _ =>
        ∃ log, (SendPostback k r).updates = [log] ∧ (SendPostback k r).remits = [] ∧
          log.Status = "rejected" ∧ LogMatches log conv m
      | none =>
        if Terminal conv ∨ m.RemittedAt = none then
          (SendPostback k r).updates = [] ∧ (SendPostback k r).remits = []
        else
          ∃ c log, (SendPostback k r).updates = [] ∧
            (SendPostback k r).remits = [(postbackCtx r, c, log)] ∧ LogMatches log conv m := by
  refine ⟨writes_le_one k r, ?_⟩
  intro conv m h
  cases hv : k.RemitValidation (buildLog conv m) with
  | some e =>
    refine ⟨{ buildLog conv m with Status := "rejected" }, ?_⟩
    rw [run_rejected h hv]
    simp [Run.updates, Run.remits, LogMatches, buildLog]
  | none =>
    by_cases ht : Terminal conv
    · rw [run_gate h hv ht]
      simp [Run.updates, Run.remits, ht]
    · by_cases hr : m.RemittedAt = none
      · rw [run_unremitted h hv ht hr]
        simp [Run.updates, Run.remits, hr]
      · simp only [ht, hr, or_self, if_false]
        refine ⟨settled conv m, buildLog conv m, ?_⟩
        rw [run_settle h hv ht hr]
        simp [Run.updates, Run.remits, LogMatches, buildLog]

/-- Scenario B makes one `Remit` and scenario C one rejected update. -/
theorem C9_one_log_per_attempt_witness :
    (∃ c log, (SendPostback (sampleDeps pendingConv trxRemitted remitOk) postbackReq).updates = [] ∧
      (SendPostback (sampleDeps pendingConv trxRemitted remitOk) postbackReq).remits
        = [(postbackCtx postbackReq, c, log)] ∧ LogMatches log pendingConv trxRemitted) ∧
    (∃ log, (SendPostback (sampleDeps pendingConv trxNegative remitOk) postbackReq).updates = [log] ∧
      (SendPostback (sampleDeps pendingConv trxNegative remitOk) postbackReq).remits = [] ∧
      log.Status = "rejected" ∧ LogMatches log pendingConv trxNegative) :=
  ⟨(C9_one_log_per_attempt (sampleDeps pendingConv trxRemitted remitOk) postbackReq).2
      pendingConv trxRemitted (sample_loaded _ _ _ rfl),
   (C9_one_log_per_attempt (sampleDeps pendingConv trxNegative remitOk) postbackReq).2
      pendingConv trxNegative (sample_loaded _ _ _ rfl)⟩

/-! ## Claims about `GetConversions` -/

/-- The filter is the five bindings, each with its supplied value or default. -/
theorem buildFilter_eq (q : Values) :
    buildFilter q =
      [("start_date",
          match supplied q "start_date" with
          | some v => if v ≠ "" then v else "0001-01-01"
          | none => "0001-01-01"),
       ("end_date",
          match supplied q "end_date" with
          | some v => if v ≠ "" then v else "9999-12-31"
          | none => "9999-12-31"),
       ("search_by", (supplied q "search_by").getD ""),
       ("keywords", (supplied q "keywords").getD ""),
       ("sort", (supplied q "sort").getD "desc")] := by
  unfold buildFilter supplied
  cases q.get "start_date" <;> cases q.get "end_date" <;> cases q.get "search_by" <;>
    cases q.get "keywords" <;> cases q.get "sort" <;>
    simp [Filter.set] <;> split_ifs <;> simp_all [Filter.set]

/-- What `GetConversions` does once the token is accepted. -/
theorem getConversions_authorized (k : ListDeps) (r : Request) (o : Owner)
    (hTok : k.Token r.authorization [] = .ok o) :
    GetConversions k r =
      match pageParam r.query "limit" 10 with
      | .error e => ⟨[.respError .UnprocessableEntity], none, .err e⟩
      | .ok limit =>
        match pageParam r.query "offset" 0 with
        | .error e => ⟨[.respError .UnprocessableEntity], none, .err e⟩
        | .ok offset =>
          match k.RetrieveConversions (listCtx r) (buildFilter r.query) limit offset with
          | .error e =>
            ⟨[.callRetrieve (listCtx r) (buildFilter r.query) limit offset, .respError e],
              none, .err e⟩
          | .ok (conversions, count) =>
            ⟨[.callRetrieve (listCtx r) (buildFilter r.query) limit offset,
              .respOKMeta conversions
                { HTTPStatus := 200, Limit := limit, Offset := offset, Total := count }],
              none, .nil⟩ := by
  simp only [GetConversions, hTok, pageParam, supplied, listCtx]
  cases r.query.get "limit" <;> cases r.query.get "offset" <;> simp

/-- C7 as stated fails for a negative value: `limit=-5` parses, as the negative
integer -5, and `RetrieveConversions` is called with limit -5; the request is
answered with a list and nil, not with UnprocessableEntity. -/
theorem C7_counterexample :
    Atoi "-5" = .ok (-5) ∧
    (GetConversions sampleList (listReq [("limit", "-5", [])])).retrieves
      = [(listCtx (listReq [("limit", "-5", [])]), buildFilter [("limit", "-5", [])], -5, 0)] ∧
    (GetConversions sampleList (listReq [("limit", "-5", [])])).responses
      = [.respOKMeta [] { HTTPStatus := 200, Limit := -5, Offset := 0, Total := 0 }] ∧
    (GetConversions sampleList (listReq [("limit", "-5", [])])).ret = .nil :=
  ⟨by rfl, by rfl, by rfl, by rfl⟩

/-- C7 (amended): with a valid token, `RetrieveConversions` is called if and
only if each of `limit` and `offset` is either absent or has a first value
that `strconv.Atoi` parses as an integer, negative ones included; it is then
called exactly once, with the filter built from the query and the parsed
values, an absent limit being 10 and an absent offset 0. In every other case
the whole run is the response UnprocessableEntity and the return of the parse
error, without any call to `RetrieveConversions`. -/
theorem C7_pagination (k : ListDeps) (r : Request) (o : Owner)
    (hTok : k.Token r.authorization [] = .ok o) :
    ((GetConversions k r).retrieves ≠ [] ↔
      (∃ l, pageParam r.query "limit" 10 = .ok l) ∧
      (∃ f, pageParam r.query "offset" 0 = .ok f)) ∧
    match pageParam r.query "limit" 10, pageParam r.query "offset" 0 with
    | .ok limit, .ok offset =>
      (GetConversions k r).retrieves = [(listCtx r, buildFilter r.query, limit, offset)]
    | .error e, _ =>
      GetConversions k r = ⟨[.respError .UnprocessableEntity], none, .err e⟩
    | .ok _, .error e =>
      GetConversions k r = ⟨[.respError .UnprocessableEntity], none, .err e⟩ := by
  rw [getConversions_authorized k r o hTok]
  cases hl : pageParam r.query "limit" 10 with
  | error e => simp [Run.retrieves]
  | ok limit =>
    cases ho : pageParam r.query "offset" 0 with
    | error e => simp [Run.retrieves]
    | ok offset =>
      cases hR : k.RetrieveConversions (listCtx r) (buildFilter r.query) limit offset with
      | error e => simp [Run.retrieves, hR]
      | ok res => simp [Run.retrieves, hR]

/-- Scenario F (`limit=abc` is refused before the repository is touched), a
request without pagination keys (10 and 0 are passed), and `offset=-3`. -/
theorem C7_pagination_witness :
    (GetConversions sampleList (listReq [("limit", "abc", [])])
      = ⟨[.respError .UnprocessableEntity], none, .err (.numSyntax "abc")⟩) ∧
    ((GetConversions sampleList (listReq [])).retrieves
      = [(listCtx (listReq []), buildFilter [], 10, 0)]) ∧
    ((GetConversions sampleList (listReq [("offset", "-3", [])])).retrieves
      = [(listCtx (listReq [("offset", "-3", [])]), buildFilter [("offset", "-3", [])], 10, -3)]) :=
  ⟨(C7_pagination sampleList (listReq [("limit", "abc", [])]) ⟨"partner"⟩ rfl).2,
   (C7_pagination sampleList (listReq []) ⟨"partner"⟩ rfl).2,
   (C7_pagination sampleList (listReq [("offset", "-3", [])]) ⟨"partner"⟩ rfl).2⟩

/-- C10: whenever `GetConversions` calls `RetrieveConversions`, the filter
passed has exactly the keys start_date, end_date, search_by, keywords and sort
(listed in the order of assignment); start_date is the supplied value when
present and non-empty and otherwise "0001-01-01"; end_date is the supplied
value when present and non-empty and otherwise "9999-12-31"; search_by and
keywords are the supplied values or empty; sort is the supplied value, or
"desc" when none is supplied. -/
theorem C10_filter_defaults (k : ListDeps) (r : Request) (c : Ctx) (f : Filter) (l o : Int)
    (h : (c, f, l, o) ∈ (GetConversions k r).retrieves) :
    f.keys = ["start_date", "end_date", "search_by", "keywords", "sort"] ∧
    f.get "start_date" = some
      (match supplied r.query "start_date" with
       | some v => if v ≠ "" then v else "0001-01-01"
       | none => "0001-01-01") ∧
    f.get "end_date" = some
      (match supplied r.query "end_date" with
       | some v => if v ≠ "" then v else "9999-12-31"
       | none => "9999-12-31") ∧
    f.get "search_by" = some ((supplied r.query "search_by").getD "") ∧
    f.get "keywords" = some ((supplied r.query "keywords").getD "") ∧
    f.get "sort" = some ((supplied r.query "sort").getD "desc") := by
  have hf : f = buildFilter r.query := by
    cases hTok : k.Token r.authorization [] with
    | error e => simp [GetConversions, hTok, Run.retrieves] at h
    | ok ow =>
      rw [getConversions_authorized k r ow hTok] at h
      cases hl : pageParam r.query "limit" 10 with
      | error e => simp [Run.retrieves, hl] at h
      | ok limit =>
        cases ho : pageParam r.query "offset" 0 with
        | error e => simp [Run.retrieves, hl, ho] at h
        | ok offset =>
          cases hR : k.RetrieveConversions (listCtx r) (buildFilter r.query) limit offset with
          | error e => simp [Run.retrieves, hl, ho, hR] at h; exact h.2.1
          | ok res => simp [Run.retrieves, hl, ho, hR] at h; exact h.2.1
  rw [hf, buildFilter_eq]
  simp [Filter.keys, Filter.get]

/-- A query with an empty start date, a search and an ascending sort. -/
theorem C10_filter_defaults_witness :
    (buildFilter [("start_date", "", []), ("search_by", "status", []), ("keywords", "paid", []),
        ("sort", "asc", ["desc"])]).keys
      = ["start_date", "end_date", "search_by", "keywords", "sort"] ∧
    buildFilter [("start_date", "", []), ("search_by", "status", []), ("keywords", "paid", []),
        ("sort", "asc", ["desc"])]
      = [("start_date", "0001-01-01"), ("end_date", "9999-12-31"), ("search_by", "status"),
         ("keywords", "paid"), ("sort", "asc")] :=
  ⟨(C10_filter_defaults sampleList
      (listReq [("start_date", "", []), ("search_by", "status", []), ("keywords", "paid", []),
        ("sort", "asc", ["desc"])])
      _ _ 10 0 (List.mem_singleton.2 rfl)).1, by rfl⟩

/-! ## Claims about `CreateManualConversion` -/

/-- What `CreateManualConversion` does once it reaches `Manual`. -/
theorem createManual_admitted {k : ManualDeps} {r : Request} {conv : Conversion}
    {log : BukalapakTransaction} {owner : Owner} (h : Admitted k r conv log owner) :
    CreateManualConversion k r =
      match k.Manual (manualCtx r conv) conv log owner with
      | (conv1, some err, mustSuccess) =>
        if mustSuccess then
          ⟨[.callManual (manualCtx r conv) conv log owner, .respOK (.err err)], some conv1,
            .err err⟩
        else
          ⟨[.callManual (manualCtx r conv) conv log owner, .respError err], some conv1, .err err⟩
      | (conv1, none, _) =>
        ⟨[.callManual (manualCtx r conv) conv log owner, .respCreated conv1], some conv1, .nil⟩ := by
  obtain ⟨h1, h2, h3, h4, h5⟩ := h
  have h5a : (SetTrackID (AppendTags r.ctx "conversion")
      (toString conv.BukalapakTransactionID)).authOwner = some owner := by
    simpa [SetTrackID, AppendTags] using h5
  simp only [CreateManualConversion, h1, h2, h3, h4, h5a, manualCtx]

/-- C8 as stated fails when `Manual` fails with the flag raised: the OK
response carries the error, and no response carries the conversion `Manual`
returned. -/
theorem C8_counterexample :
    Admitted (sampleManual (completedConv, some (.other "conversion update failed"), true))
      manualReq pendingConv BukalapakTransaction.zero ⟨"operator"⟩ ∧
    (CreateManualConversion
        (sampleManual (completedConv, some (.other "conversion update failed"), true))
        manualReq).responses
      = [.respOK (.err (.other "conversion update failed"))] ∧
    Event.respOK (.conv completedConv) ∉
      (CreateManualConversion
        (sampleManual (completedConv, some (.other "conversion update failed"), true))
        manualReq).events ∧
    Event.respOK (.conv pendingConv) ∉
      (CreateManualConversion
        (sampleManual (completedConv, some (.other "conversion update failed"), true))
        manualReq).events :=
  ⟨⟨rfl, rfl, rfl, rfl, rfl⟩, by rfl, by decide, by decide⟩

/-- C8 (amended): once the request is decoded and `ValidateEmptyField` and
`ManualCheck` pass, `Manual` is called once. If it returns an error and the
must-succeed flag was raised during the call, the only response is an OK
response whose body is that error; if the flag was not raised, the only
response is an error response carrying the error; in both cases the error is
returned. If `Manual` returns no error the only response is Created with the
conversion `Manual` returned, and the handler returns nil. -/
theorem C8_manual_response_shape (k : ManualDeps) (r : Request) (conv : Conversion)
    (log : BukalapakTransaction) (owner : Owner) (h : Admitted k r conv log owner) :
    match k.Manual (manualCtx r conv) conv log owner with
    | (_, some err, true) =>
      (CreateManualConversion k r).responses = [.respOK (.err err)] ∧
      (CreateManualConversion k r).ret = .err err
    | (_, some err, false) =>
      (CreateManualConversion k r).responses = [.respError err] ∧
      (CreateManualConversion k r).ret = .err err
    | (conv1, none, _) =>
      (CreateManualConversion k r).responses = [.respCreated conv1] ∧
      (CreateManualConversion k r).ret = .nil := by
  rw [createManual_admitted h]
  rcases hM : k.Manual (manualCtx r conv) conv log owner with ⟨conv1, _ | err, _ | _⟩ <;>
    simp [Run.responses, Event.isResponse]

/-- The three outcomes of `Manual` on the operator request. -/
theorem C8_manual_response_shape_witness :
    ((CreateManualConversion
        (sampleManual (completedConv, some (.other "conversion update failed"), true))
        manualReq).responses = [.respOK (.err (.other "conversion update failed"))] ∧
      (CreateManualConversion
        (sampleManual (completedConv, some (.other "conversion update failed"), true))
        manualReq).ret = .err (.other "conversion update failed")) ∧
    ((CreateManualConversion
        (sampleManual (pendingConv, some (.other "duplicate"), false))
        manualReq).responses = [.respError (.other "duplicate")] ∧
      (CreateManualConversion
        (sampleManual (pendingConv, some (.other "duplicate"), false))
        manualReq).ret = .err (.other "duplicate")) ∧
    ((CreateManualConversion (sampleManual (completedConv, none, false)) manualReq).responses
        = [.respCreated completedConv] ∧
      (CreateManualConversion (sampleManual (completedConv, none, false)) manualReq).ret
        = .nil) :=
  ⟨C8_manual_response_shape
      (sampleManual (completedConv, some (.other "conversion update failed"), true))
      manualReq pendingConv BukalapakTransaction.zero ⟨"operator"⟩ ⟨rfl, rfl, rfl, rfl, rfl⟩,
   C8_manual_response_shape (sampleManual (pendingConv, some (.other "duplicate"), false))
      manualReq pendingConv BukalapakTransaction.zero ⟨"operator"⟩ ⟨rfl, rfl, rfl, rfl, rfl⟩,
   C8_manual_response_shape (sampleManual (completedConv, none, false))
      manualReq pendingConv BukalapakTransaction.zero ⟨"operator"⟩ ⟨rfl, rfl, rfl, rfl, rfl⟩⟩

end Climate
